import Mathlib

/-!
Shallow embedding of the session / track-routing layer of a minimal SFU
(`src/main.go`).  The WebRTC transport engine is abstracted as an `Engine`
record of outcomes (which steps fail, what SDP strings it produces); each
Go handler becomes a pure function from the SFU state to a new state plus
a trace of engine-visible events (connection creation/closing, description
calls, track additions, outbound control-channel messages, reported
errors).  Go's `map[string]...` tables become association lists.
-/

namespace PionSfu

/-- Lookup in an association list, mirroring Go map indexing. -/
def alookup {α : Type} : List (String × α) → String → Option α
  | [], _ => none
  | (k, v) :: t, key => if k = key then some v else alookup t key

/-- Insert-or-replace in an association list, mirroring Go map assignment. -/
def aupdate {α : Type} : List (String × α) → String → α → List (String × α)
  | [], key, v => [(key, v)]
  | (k, w) :: t, key, v =>
      if k = key then (key, v) :: t else (k, w) :: aupdate t key v

/-- Delete a key from an association list, mirroring Go `delete`. -/
def aerase {α : Type} : List (String × α) → String → List (String × α)
  | [], _ => []
  | (k, w) :: t, key => if k = key then aerase t key else (k, w) :: aerase t key

/-- A JSON value, as decoded by `json.Unmarshal` into `map[string]interface` in
`handleWebSocket`. -/
inductive JValue : Type
  | str (s : String)
  | num (n : Int)
  | boolean (b : Bool)
  | null
  | obj (fields : List (String × JValue))

/-- Go's `data["key"].(string)` with the ok-flag discarded: a missing field or a
non-string field yields the empty string (`msgType, _ := data["type"].(string)`
and the `sdp` / `target` extractions in `handleWebSocket`). -/
def getString (data : List (String × JValue)) (key : String) : String :=
  match alookup data key with
  | some (JValue.str s) => s
  | _ => ""

/-- Whether an optional JSON value is a string. -/
def jIsStr : Option JValue → Bool
  | some (JValue.str _) => true
  | _ => false

/-- A forwardable track handle (`webrtc.TrackLocalStaticRTP`); in
`handlePublish`'s `OnTrack` callback it is created from the publisher's id and
the track kind and stored in the registry under `(client.ID, kind)`. -/
structure Track : Type where
  owner : String
  kind : String
  deriving DecidableEq, Repr

/-- Outbound control-channel messages: the three `WriteJSON` calls of the
source (`welcome`, `publish_answer`, `subscribe_offer`). -/
inductive OutMsg : Type
  | welcome (id : String)
  | publishAnswer (sdp : String)
  | subscribeOffer (sdp : String)
  deriving DecidableEq, Repr

/-- Engine-visible events emitted by the handlers, in program order: calls
into the transport engine, outbound messages, and locally reported errors. -/
inductive Event : Type
  | createPC (id : Nat)
  | closePC (id : Nat)
  | setRemoteDesc (id : Nat) (sdp : String)
  | createAnswer (id : Nat)
  | createOffer (id : Nat)
  | setLocalDesc (id : Nat) (sdp : String)
  | waitGathering (id : Nat)
  | addTrack (id : Nat) (tr : Track)
  | addICECandidate (id : Nat) (cand : String)
  | send (cid : String) (msg : OutMsg)
  | logError (msg : String)
  deriving DecidableEq, Repr

/-- State of one peer connection as observed through the engine interface. -/
structure PC : Type where
  pcId : Nat
  remoteDesc : Option String := none
  localDesc : Option String := none
  gathered : Bool := false
  tracks : List Track := []
  candidates : List String := []
  closed : Bool := false
  deriving DecidableEq, Repr

/-- The per-client session (`Client` in the source): an id plus the optional
publisher and subscriber peer connections.  The control channel is implicit in
`Event.send`. -/
structure Client : Type where
  id : String
  publisher : Option PC := none
  subscriber : Option PC := none
  deriving DecidableEq, Repr

/-- The whole SFU state (`SFU` in the source): the session set
`clients : map[string]Client` and the track registry
`tracks : map[string]map[string]Track`, plus a counter handing out fresh
peer-connection identities. -/
structure SFU : Type where
  clients : List (String × Client) := []
  tracks : List (String × List (String × Track)) := []
  nextPC : Nat := 0
  deriving DecidableEq, Repr

/-- Outcomes chosen by the opaque transport engine for one handler call:
which engine steps fail, and which SDP strings it produces.  `iceSuffix` is
the candidate material that ICE gathering appends to the pending local
description before it is read back by `pc.LocalDescription()`. -/
structure Engine : Type where
  pubCreateFails : Bool := false
  pubSetRemoteFails : Bool := false
  pubCreateAnswerFails : Bool := false
  pubSetLocalFails : Bool := false
  pubAnswerSDP : String := "answer"
  subCreateFails : Bool := false
  subAddFails : List (String × String) := []
  subCreateOfferFails : Bool := false
  subSetLocalFails : Bool := false
  subOfferSDP : String := "offer"
  ansSetRemoteFails : Bool := false
  iceAddFails : Bool := false
  trackCreateFails : Bool := false
  fanAddFails : List String := []
  iceSuffix : String := ""
  deriving DecidableEq, Repr

/-- Connection selected by `handleICE`: `target == "publish"` picks the
publisher, every other value falls into the `else` branch and picks the
subscriber. -/
def targetPC (c : Client) (target : String) : Option PC :=
  if target = "publish" then c.publisher else c.subscriber

/-- Go re-marshals the untyped `candidate` field and unmarshals it into
`webrtc.ICECandidateInit`.  A missing field or JSON `null` unmarshal to the
zero value (empty candidate string); an object unmarshals its `candidate`
field when that field is absent or a string; any other shape fails. -/
def parseCandidate : Option JValue → Option String
  | none => some ""
  | some JValue.null => some ""
  | some (JValue.obj fields) =>
      match alookup fields "candidate" with
      | none => some ""
      | some (JValue.str s) => some s
      | some _ => none
  | some _ => none

/-- One step of the fan-out loop in `handlePublish`'s `OnTrack` callback,
acting on one entry of the session set: the publisher itself is skipped, a
session without a subscriber connection is skipped, otherwise the new handle
is appended to that subscriber connection (unless the engine's `AddTrack`
fails for that session, in which case the connection is unchanged). -/
def fanStep (pid : String) (tr : Track) (fails : List String)
    (oid : String) (c : Client) : Client :=
  if oid = pid then c
  else
    match c.subscriber with
    | none => c
    | some pc =>
        if oid ∈ fails then c
        else { c with subscriber := some { pc with tracks := pc.tracks ++ [tr] } }

/-- Events of one step of the fan-out loop: an `AddTrack` call for every other
session holding a subscriber connection, followed by a reported error when the
call fails; skipped sessions produce no events. -/
def fanEvents (pid : String) (tr : Track) (fails : List String)
    (oid : String) (c : Client) : List Event :=
  if oid = pid then []
  else
    match c.subscriber with
    | none => []
    | some pc =>
        if oid ∈ fails then
          [Event.addTrack pc.pcId tr, Event.logError "failed to add track"]
        else [Event.addTrack pc.pcId tr]

/-- The whole fan-out loop over the session set (`for otherID, otherClient :=
range s.clients` in the `OnTrack` callback). -/
def fanout (clients : List (String × Client)) (pid : String) (tr : Track)
    (fails : List String) : List (String × Client) × List Event :=
  (clients.map (fun p => (p.1, fanStep pid tr fails p.1 p.2)),
   clients.flatMap (fun p => fanEvents pid tr fails p.1 p.2))

/-- Body of `handlePublish`'s `OnTrack` callback, fired by the engine when a
new inbound stream of kind `kind` arrives on `cid`'s publisher connection:
create a forwardable handle (abort with a report on failure), store it in the
track registry under `(cid, kind)`, then fan it out to every other session's
subscriber connection.  The forwarding loop that follows only moves media and
touches no session state. -/
def onTrackFired (s : SFU) (cid : String) (kind : String) (eng : Engine) :
    SFU × List Event :=
  if eng.trackCreateFails then (s, [Event.logError "failed to create local track"])
  else
    let tr : Track := { owner := cid, kind := kind }
    let inner := (alookup s.tracks cid).getD []
    let tracks1 := aupdate s.tracks cid (aupdate inner kind tr)
    let fan := fanout s.clients cid tr eng.fanAddFails
    ({ s with tracks := tracks1, clients := fan.1 }, fan.2)

/-- Tail of `handlePublish` from peer-connection creation on: create the new
publisher connection (on failure report and abort, leaving the session as it
was), install it as `client.Publisher`, set the client's offer as remote
description, create the answer, set it as local description, wait for ICE
gathering to complete, and send the gathered local description as
`publish_answer`.  Each description step that fails reports and aborts with
the half-configured connection still installed. -/
def publishCore (s : SFU) (cid : String) (c : Client) (sdp : String)
    (eng : Engine) : SFU × List Event :=
  if eng.pubCreateFails then (s, [Event.logError "failed to create publisher"])
  else
    let n := s.nextPC
    let pc0 : PC := { pcId := n }
    let c1 := { c with publisher := some pc0 }
    let s1 := { s with clients := aupdate s.clients cid c1, nextPC := n + 1 }
    let evs1 := [Event.createPC n, Event.setRemoteDesc n sdp]
    if eng.pubSetRemoteFails then
      (s1, evs1 ++ [Event.logError "failed to set remote description"])
    else
      let pc1 := { pc0 with remoteDesc := some sdp }
      let s2 := { s1 with clients := aupdate s1.clients cid { c1 with publisher := some pc1 } }
      if eng.pubCreateAnswerFails then
        (s2, evs1 ++ [Event.createAnswer n, Event.logError "failed to create answer"])
      else
        let ans := eng.pubAnswerSDP
        let evs2 := evs1 ++ [Event.createAnswer n, Event.setLocalDesc n ans]
        if eng.pubSetLocalFails then
          (s2, evs2 ++ [Event.logError "failed to set local description"])
        else
          let final := ans ++ eng.iceSuffix
          let pc2 := { pc1 with localDesc := some final, gathered := true }
          let s3 := { s2 with clients := aupdate s2.clients cid { c1 with publisher := some pc2 } }
          (s3, evs2 ++ [Event.waitGathering n,
                        Event.send cid (OutMsg.publishAnswer final)])

/-- `handlePublish`: under the session lock, close any existing publisher
connection (the `Publisher` field keeps pointing at the closed connection
until the new one is installed), then run the rest of the flow
(`publishCore`). -/
def handlePublish (s : SFU) (cid : String) (sdp : String) (eng : Engine) :
    SFU × List Event :=
  match alookup s.clients cid with
  | none => (s, [])
  | some c =>
      match c.publisher with
      | none => publishCore s cid c sdp eng
      | some old =>
          let c1 := { c with publisher := some { old with closed := true } }
          let s1 := { s with clients := aupdate s.clients cid c1 }
          let r := publishCore s1 cid c1 sdp eng
          (r.1, Event.closePC old.pcId :: r.2)

/-- Registry snapshot used by `handleSubscribe`: every forwardable handle in
the track registry not owned by `cid` (`for otherID, tracks := range s.tracks`
with `otherID == client.ID` skipped). -/
def allExcept : List (String × List (String × Track)) → String → List Track
  | [], _ => []
  | (oid, inner) :: rest, cid =>
      if oid = cid then allExcept rest cid
      else inner.map (fun p => p.2) ++ allExcept rest cid

/-- Seeding loop of `handleSubscribe`: add each snapshot handle to the new
subscriber connection; a handle whose `AddTrack` call fails is reported and
skipped without aborting the subscription. -/
def addAll (pc : PC) (ts : List Track) (fails : List (String × String)) :
    PC × List Event :=
  match ts with
  | [] => (pc, [])
  | t :: rest =>
      if (t.owner, t.kind) ∈ fails then
        let r := addAll pc rest fails
        (r.1, Event.addTrack pc.pcId t :: Event.logError "failed to add track" :: r.2)
      else
        let r := addAll { pc with tracks := pc.tracks ++ [t] } rest fails
        (r.1, Event.addTrack pc.pcId t :: r.2)

/-- Tail of `handleSubscribe` from peer-connection creation on: create the new
subscriber connection, install it as `client.Subscriber`, add every registry
handle owned by other clients, create the offer, set it as local description,
wait for ICE gathering to complete, and send the gathered local description as
`subscribe_offer`. -/
def subscribeCore (s : SFU) (cid : String) (c : Client) (eng : Engine) :
    SFU × List Event :=
  if eng.subCreateFails then (s, [Event.logError "failed to create subscriber"])
  else
    let n := s.nextPC
    let pc0 : PC := { pcId := n }
    let seeded := addAll pc0 (allExcept s.tracks cid) eng.subAddFails
    let c1 := { c with subscriber := some seeded.1 }
    let s1 := { s with clients := aupdate s.clients cid c1, nextPC := n + 1 }
    let evs1 := Event.createPC n :: seeded.2
    if eng.subCreateOfferFails then
      (s1, evs1 ++ [Event.createOffer n, Event.logError "failed to create subscriber offer"])
    else
      let off := eng.subOfferSDP
      let evs2 := evs1 ++ [Event.createOffer n, Event.setLocalDesc n off]
      if eng.subSetLocalFails then
        (s1, evs2 ++ [Event.logError "failed to set local description"])
      else
        let final := off ++ eng.iceSuffix
        let pc2 := { seeded.1 with localDesc := some final, gathered := true }
        let s2 := { s1 with clients := aupdate s1.clients cid { c1 with subscriber := some pc2 } }
        (s2, evs2 ++ [Event.waitGathering n,
                      Event.send cid (OutMsg.subscribeOffer final)])

/-- `handleSubscribe`: under the session lock, close any existing subscriber
connection, then run the rest of the flow (`subscribeCore`). -/
def handleSubscribe (s : SFU) (cid : String) (eng : Engine) :
    SFU × List Event :=
  match alookup s.clients cid with
  | none => (s, [])
  | some c =>
      match c.subscriber with
      | none => subscribeCore s cid c eng
      | some old =>
          let c1 := { c with subscriber := some { old with closed := true } }
          let s1 := { s with clients := aupdate s.clients cid c1 }
          let r := subscribeCore s1 cid c1 eng
          (r.1, Event.closePC old.pcId :: r.2)

/-- `handleAnswer`: requires an existing subscriber connection; without one it
reports the ordering violation and returns with the state untouched.
Otherwise the client's SDP is set as the subscriber connection's remote
description (a failing engine call is reported and leaves the description
unset). -/
def handleAnswer (s : SFU) (cid : String) (sdp : String) (eng : Engine) :
    SFU × List Event :=
  match alookup s.clients cid with
  | none => (s, [])
  | some c =>
      match c.subscriber with
      | none => (s, [Event.logError "no subscriber to set answer"])
      | some pc =>
          if eng.ansSetRemoteFails then
            (s, [Event.setRemoteDesc pc.pcId sdp,
                 Event.logError "failed to set remote description"])
          else
            let c1 := { c with subscriber := some { pc with remoteDesc := some sdp } }
            ({ s with clients := aupdate s.clients cid c1 },
             [Event.setRemoteDesc pc.pcId sdp])

/-- `handleICE`: select the publisher connection when `target == "publish"`,
otherwise the subscriber connection; if the selected connection does not
exist, return silently (no event, no state change).  Otherwise re-marshal the
candidate; a payload that fails to unmarshal is reported and dropped; a parsed
candidate is handed to the engine's `AddICECandidate` (a failing call is
reported, a successful one records the candidate on the connection). -/
def handleICE (s : SFU) (cid : String) (target : String)
    (cand : Option JValue) (eng : Engine) : SFU × List Event :=
  match alookup s.clients cid with
  | none => (s, [])
  | some c =>
      match targetPC c target with
      | none => (s, [])
      | some pc =>
          match parseCandidate cand with
          | none => (s, [Event.logError "failed to parse ICE candidate"])
          | some candStr =>
              if eng.iceAddFails then
                (s, [Event.addICECandidate pc.pcId candStr,
                     Event.logError "failed to add ICE candidate"])
              else
                let pc1 := { pc with candidates := pc.candidates ++ [candStr] }
                let c1 :=
                  if target = "publish" then { c with publisher := some pc1 }
                  else { c with subscriber := some pc1 }
                ({ s with clients := aupdate s.clients cid c1 },
                 [Event.addICECandidate pc.pcId candStr])

/-- Connection setup in `handleWebSocket`: insert a fresh session for the new
client id into the session set and send the `welcome` message. -/
def connect (s : SFU) (cid : String) : SFU × List Event :=
  ({ s with clients := aupdate s.clients cid { id := cid } },
   [Event.send cid (OutMsg.welcome cid)])

/-- Cleanup at the end of `handleWebSocket`: under the registry lock, delete
the session from the session set and delete every track-registry entry owned
by the client (one transaction), then close whichever of the two connections
exist. -/
def disconnect (s : SFU) (cid : String) : SFU × List Event :=
  let s1 := { s with clients := aerase s.clients cid, tracks := aerase s.tracks cid }
  let evs :=
    match alookup s.clients cid with
    | none => []
    | some c =>
        (match c.publisher with
         | some pc => [Event.closePC pc.pcId]
         | none => []) ++
        (match c.subscriber with
         | some pc => [Event.closePC pc.pcId]
         | none => [])
  (s1, evs)

/-- Message dispatch of `handleWebSocket`'s read loop: switch on the `type`
field (missing or non-string tags become `""`), extract `sdp` / `target` the
same way, pass the raw `candidate` value through, and ignore unknown tags. -/
def dispatch (s : SFU) (cid : String) (data : List (String × JValue))
    (eng : Engine) : SFU × List Event :=
  match getString data "type" with
  | "publish" => handlePublish s cid (getString data "sdp") eng
  | "subscribe" => handleSubscribe s cid eng
  | "answer" => handleAnswer s cid (getString data "sdp") eng
  | "ice" => handleICE s cid (getString data "target") (alookup data "candidate") eng
  | _ => (s, [])

/-- One observable operation on the SFU: a client connecting, an inbound
control message, the engine firing an inbound-track callback, or a client
disconnecting. -/
inductive Op : Type
  | connect (cid : String)
  | message (cid : String) (data : List (String × JValue)) (eng : Engine)
  | onTrack (cid : String) (kind : String) (eng : Engine)
  | disconnect (cid : String)

/-- Apply one operation to the SFU state. -/
def applyOp (s : SFU) : Op → SFU × List Event
  | Op.connect cid => connect s cid
  | Op.message cid data eng => dispatch s cid data eng
  | Op.onTrack cid kind eng => onTrackFired s cid kind eng
  | Op.disconnect cid => disconnect s cid

/-- Run a sequence of operations, keeping only the final state. -/
def runOps (s : SFU) (ops : List Op) : SFU :=
  ops.foldl (fun st op => (applyOp st op).1) s

/-- Recognizer for `AddTrack` calls in a trace. -/
def isAddTrackEv : Event → Bool
  | Event.addTrack _ _ => true
  | _ => false

/-- Recognizer for outbound control-channel messages in a trace. -/
def isSendEv : Event → Bool
  | Event.send _ _ => true
  | _ => false

/-- Recognizer for peer-connection creations in a trace. -/
def isCreateEv : Event → Bool
  | Event.createPC _ => true
  | _ => false

/-- Recognizer for closes of the peer connection with identity `pid`. -/
def isCloseEv (pid : Nat) : Event → Bool
  | Event.closePC i => i == pid
  | _ => false

/-- Recognizer for reported errors in a trace. -/
def isErrEv : Event → Bool
  | Event.logError _ => true
  | _ => false

/-- Recognizer for `SetRemoteDescription` calls in a trace. -/
def isSetRemoteEv : Event → Bool
  | Event.setRemoteDesc _ _ => true
  | _ => false

/-- Number of sessions other than `pid` currently holding a subscriber
connection. -/
def othersWithSub (clients : List (String × Client)) (pid : String) : Nat :=
  (clients.filter (fun p => !(p.1 == pid) && p.2.subscriber.isSome)).length

lemma alookup_aupdate_self {α : Type} (l : List (String × α)) (k : String) (v : α) :
    alookup (aupdate l k v) k = some v := by
  induction l with
  | nil => simp [aupdate, alookup]
  | cons h t ih =>
      obtain ⟨k', w⟩ := h
      by_cases hk : k' = k
      · simp [aupdate, hk, alookup]
      · simp [aupdate, hk, alookup, ih]

lemma alookup_aerase_self {α : Type} (l : List (String × α)) (k : String) :
    alookup (aerase l k) k = none := by
  induction l with
  | nil => simp [aerase, alookup]
  | cons h t ih =>
      obtain ⟨k', w⟩ := h
      by_cases hk : k' = k
      · simp [aerase, hk, ih]
      · simp [aerase, hk, alookup, ih]

lemma alookup_map_keyed {α β : Type} (l : List (String × α)) (k : String)
    (f : String → α → β) :
    alookup (l.map (fun p => (p.1, f p.1 p.2))) k = (alookup l k).map (f k) := by
  induction l with
  | nil => simp [alookup]
  | cons h t ih =>
      obtain ⟨k', w⟩ := h
      by_cases hk : k' = k
      · subst hk; simp [alookup]
      · simp [alookup, hk, ih]

lemma countP_fanEvents_add (pid : String) (tr : Track) (fails : List String)
    (oid : String) (c : Client) :
    (fanEvents pid tr fails oid c).countP isAddTrackEv =
      if oid = pid then 0 else if c.subscriber.isSome then 1 else 0 := by
  unfold fanEvents
  by_cases h : oid = pid
  · simp [h]
  · simp only [h, if_false]
    cases hs : c.subscriber with
    | none => simp [hs]
    | some pc =>
        by_cases hf : oid ∈ fails
        · simp [hf, List.countP_cons, isAddTrackEv]
        · simp [hf, List.countP_cons, isAddTrackEv]

lemma countAdd_fanout (clients : List (String × Client)) (pid : String)
    (tr : Track) (fails : List String) :
    ((fanout clients pid tr fails).2).countP isAddTrackEv =
      othersWithSub clients pid := by
  induction clients with
  | nil => simp [fanout, othersWithSub]
  | cons h t ih =>
      obtain ⟨oid, c⟩ := h
      simp only [fanout, List.flatMap_cons, List.countP_append] at *
      rw [countP_fanEvents_add]
      unfold othersWithSub at *
      by_cases hp : oid = pid
      · simp [hp, ih]
      · cases hs : c.subscriber with
        | none => simp [hp, hs, List.filter_cons, ih]
        | some pc => simp [hp, hs, List.filter_cons, ih, Nat.add_comm]

lemma countErr_fanEvents (pid : String) (tr : Track)
    (oid : String) (c : Client) :
    (fanEvents pid tr [] oid c).countP isErrEv = 0 := by
  unfold fanEvents
  by_cases h : oid = pid
  · simp [h]
  · simp only [h, if_false]
    cases hs : c.subscriber with
    | none => simp
    | some pc => simp [List.countP_cons, isErrEv]

lemma countErr_fanout (clients : List (String × Client)) (pid : String)
    (tr : Track) :
    ((fanout clients pid tr []).2).countP isErrEv = 0 := by
  induction clients with
  | nil => simp [fanout]
  | cons h t ih =>
      obtain ⟨oid, c⟩ := h
      simp only [fanout, List.flatMap_cons, List.countP_append] at *
      rw [countErr_fanEvents, ih]

lemma othersWithSub_eq_length (l : List (String × Client)) (pid : String)
    (h0 : l.countP (fun p => p.1 == pid) = 0)
    (h1 : ∀ p ∈ l, p.1 ≠ pid → p.2.subscriber.isSome = true) :
    othersWithSub l pid = l.length := by
  induction l with
  | nil => simp [othersWithSub]
  | cons h t ih =>
      obtain ⟨k, c⟩ := h
      rw [List.countP_cons] at h0
      by_cases hk : k = pid
      · have hkb : ((k, c).1 == pid) = true := by simp [hk]
        rw [hkb] at h0
        simp at h0
      · have hkb : ((k, c).1 == pid) = false := by simp [hk]
        rw [hkb] at h0
        have hsub : c.subscriber.isSome = true :=
          h1 (k, c) (List.mem_cons_self _ _) hk
        have h0' : t.countP (fun p => p.1 == pid) = 0 := by omega
        have h1' : ∀ p ∈ t, p.1 ≠ pid → p.2.subscriber.isSome = true :=
          fun p hp => h1 p (List.mem_cons_of_mem _ hp)
        have heq := ih h0' h1'
        unfold othersWithSub at heq ⊢
        simp only [List.filter_cons]
        have hcond : (!((k, c).1 == pid) && (k, c).2.subscriber.isSome) = true := by
          simp [hk, hsub]
        rw [hcond]
        simp only [if_true, List.length_cons, heq]

lemma othersWithSub_pred (l : List (String × Client)) (pid : String)
    (h0 : l.countP (fun p => p.1 == pid) = 1)
    (h1 : ∀ p ∈ l, p.1 ≠ pid → p.2.subscriber.isSome = true) :
    othersWithSub l pid = l.length - 1 := by
  induction l with
  | nil => simp [List.countP_nil] at h0
  | cons h t ih =>
      obtain ⟨k, c⟩ := h
      rw [List.countP_cons] at h0
      by_cases hk : k = pid
      · have hkb : ((k, c).1 == pid) = true := by simp [hk]
        rw [hkb] at h0
        have h0' : t.countP (fun p => p.1 == pid) = 0 := by
          simp only [if_true] at h0; omega
        have h1' : ∀ p ∈ t, p.1 ≠ pid → p.2.subscriber.isSome = true :=
          fun p hp => h1 p (List.mem_cons_of_mem _ hp)
        have heq := othersWithSub_eq_length t pid h0' h1'
        unfold othersWithSub at heq ⊢
        simp only [List.filter_cons]
        have hcond : (!((k, c).1 == pid) && (k, c).2.subscriber.isSome) = false := by
          simp [hk]
        rw [hcond]
        simp only [Bool.false_eq_true, if_false, List.length_cons, heq]
        omega
      · have hkb : ((k, c).1 == pid) = false := by simp [hk]
        rw [hkb] at h0
        have hsub : c.subscriber.isSome = true :=
          h1 (k, c) (List.mem_cons_self _ _) hk
        have h0' : t.countP (fun p => p.1 == pid) = 1 := by
          simp only [Bool.false_eq_true, if_false] at h0; omega
        have h1' : ∀ p ∈ t, p.1 ≠ pid → p.2.subscriber.isSome = true :=
          fun p hp => h1 p (List.mem_cons_of_mem _ hp)
        have hpos : 1 ≤ t.length := by
          by_contra hlen
          have ht : t = [] := by
            cases t with
            | nil => rfl
            | cons a b => simp at hlen
          rw [ht] at h0'
          simp [List.countP_nil] at h0'
        have heq := ih h0' h1'
        unfold othersWithSub at heq ⊢
        simp only [List.filter_cons]
        have hcond : (!((k, c).1 == pid) && (k, c).2.subscriber.isSome) = true := by
          simp [hk, hsub]
        rw [hcond]
        simp only [if_true, List.length_cons]
        omega

lemma countClose_publishCore (s : SFU) (cid : String) (c : Client) (sdp : String)
    (eng : Engine) (pid : Nat) :
    (publishCore s cid c sdp eng).2.countP (isCloseEv pid) = 0 := by
  unfold publishCore
  by_cases h1 : eng.pubCreateFails = true
  · simp [h1, isCloseEv, List.countP_cons]
  · by_cases h2 : eng.pubSetRemoteFails = true
    · simp [h1, h2, isCloseEv, List.countP_cons, List.countP_append]
    · by_cases h3 : eng.pubCreateAnswerFails = true
      · simp [h1, h2, h3, isCloseEv, List.countP_cons, List.countP_append]
      · by_cases h4 : eng.pubSetLocalFails = true
        · simp [h1, h2, h3, h4, isCloseEv, List.countP_cons, List.countP_append]
        · simp [h1, h2, h3, h4, isCloseEv, List.countP_cons, List.countP_append]

lemma publishCore_trace_head (s : SFU) (cid : String) (c : Client) (sdp : String)
    (eng : Engine) (h0 : eng.pubCreateFails = false) :
    ∃ rest, (publishCore s cid c sdp eng).2 =
      Event.createPC s.nextPC :: Event.setRemoteDesc s.nextPC sdp :: rest := by
  unfold publishCore
  rw [h0]
  by_cases h2 : eng.pubSetRemoteFails = true
  · simp only [Bool.false_eq_true, if_false, h2, if_true]
    exact ⟨_, rfl⟩
  · simp only [Bool.false_eq_true, if_false, h2]
    by_cases h3 : eng.pubCreateAnswerFails = true
    · simp only [h3, if_true]
      exact ⟨_, rfl⟩
    · simp only [h3, Bool.false_eq_true, if_false]
      by_cases h4 : eng.pubSetLocalFails = true
      · simp only [h4, if_true]
        exact ⟨_, rfl⟩
      · simp only [h4, Bool.false_eq_true, if_false]
        exact ⟨_, rfl⟩

lemma getString_of_not_str (data : List (String × JValue)) (key : String)
    (h : jIsStr (alookup data key) = false) : getString data key = "" := by
  unfold getString
  cases hm : alookup data key with
  | none => rfl
  | some v =>
      cases v with
      | str t => rw [hm] at h; simp [jIsStr] at h
      | num n => rfl
      | boolean b => rfl
      | null => rfl
      | obj fs => rfl

lemma publishCore_abort (s : SFU) (cid : String) (c : Client) (sdp : String)
    (eng : Engine) (h0 : eng.pubCreateFails = false)
    (hf : eng.pubSetRemoteFails = true ∨ eng.pubCreateAnswerFails = true ∨
          eng.pubSetLocalFails = true) :
    (publishCore s cid c sdp eng).2.countP isSendEv = 0 ∧
    (publishCore s cid c sdp eng).2.countP isCreateEv = 1 ∧
    ∃ pc, alookup (publishCore s cid c sdp eng).1.clients cid =
            some { c with publisher := some pc } ∧
          pc.pcId = s.nextPC := by
  unfold publishCore
  rw [h0]
  rcases hf with h2 | h3 | h4
  · simp only [Bool.false_eq_true, if_false, h2, if_true]
    refine ⟨by simp [List.countP_cons, List.countP_append, isSendEv],
            by simp [List.countP_cons, List.countP_append, isCreateEv, isSendEv], ?_⟩
    exact ⟨{ pcId := s.nextPC }, by simp [alookup_aupdate_self], rfl⟩
  · by_cases h2 : eng.pubSetRemoteFails = true
    · simp only [Bool.false_eq_true, if_false, h2, if_true]
      refine ⟨by simp [List.countP_cons, List.countP_append, isSendEv],
              by simp [List.countP_cons, List.countP_append, isCreateEv, isSendEv], ?_⟩
      exact ⟨{ pcId := s.nextPC }, by simp [alookup_aupdate_self], rfl⟩
    · simp only [Bool.false_eq_true, if_false, h2, h3, if_true]
      refine ⟨by simp [List.countP_cons, List.countP_append, isSendEv],
              by simp [List.countP_cons, List.countP_append, isCreateEv, isSendEv], ?_⟩
      exact ⟨{ pcId := s.nextPC, remoteDesc := some sdp }, by simp [alookup_aupdate_self], rfl⟩
  · by_cases h2 : eng.pubSetRemoteFails = true
    · simp only [Bool.false_eq_true, if_false, h2, if_true]
      refine ⟨by simp [List.countP_cons, List.countP_append, isSendEv],
              by simp [List.countP_cons, List.countP_append, isCreateEv, isSendEv], ?_⟩
      exact ⟨{ pcId := s.nextPC }, by simp [alookup_aupdate_self], rfl⟩
    · by_cases h3 : eng.pubCreateAnswerFails = true
      · simp only [Bool.false_eq_true, if_false, h2, h3, if_true]
        refine ⟨by simp [List.countP_cons, List.countP_append, isSendEv],
                by simp [List.countP_cons, List.countP_append, isCreateEv, isSendEv], ?_⟩
        exact ⟨{ pcId := s.nextPC, remoteDesc := some sdp }, by simp [alookup_aupdate_self], rfl⟩
      · simp only [Bool.false_eq_true, if_false, h2, h3, h4, if_true]
        refine ⟨by simp [List.countP_cons, List.countP_append, isSendEv],
                by simp [List.countP_cons, List.countP_append, isCreateEv, isSendEv], ?_⟩
        exact ⟨{ pcId := s.nextPC, remoteDesc := some sdp }, by simp [alookup_aupdate_self], rfl⟩

lemma countSend_addAll (pc : PC) (ts : List Track) (fails : List (String × String)) :
    (addAll pc ts fails).2.countP isSendEv = 0 := by
  induction ts generalizing pc with
  | nil => simp [addAll]
  | cons t rest ih =>
      unfold addAll
      by_cases hf : (t.owner, t.kind) ∈ fails
      · simp [hf, List.countP_cons, isSendEv, ih]
      · simp [hf, List.countP_cons, isSendEv, ih]

lemma countAdd_addAll_nil (pc : PC) (fails : List (String × String)) :
    (addAll pc [] fails).2.countP isAddTrackEv = 0 := by
  simp [addAll]

lemma addAll_pcId (pc : PC) (ts : List Track) (fails : List (String × String)) :
    (addAll pc ts fails).1.pcId = pc.pcId := by
  induction ts generalizing pc with
  | nil => rfl
  | cons t rest ih =>
      unfold addAll
      by_cases hf : (t.owner, t.kind) ∈ fails
      · simp [hf, ih]
      · simp [hf, ih]

lemma publishCore_success (s : SFU) (cid : String) (c : Client) (sdp : String)
    (eng : Engine) (h1 : eng.pubCreateFails = false)
    (h2 : eng.pubSetRemoteFails = false) (h3 : eng.pubCreateAnswerFails = false)
    (h4 : eng.pubSetLocalFails = false) :
    (publishCore s cid c sdp eng).2 =
      [Event.createPC s.nextPC, Event.setRemoteDesc s.nextPC sdp,
       Event.createAnswer s.nextPC, Event.setLocalDesc s.nextPC eng.pubAnswerSDP,
       Event.waitGathering s.nextPC,
       Event.send cid (OutMsg.publishAnswer (eng.pubAnswerSDP ++ eng.iceSuffix))] ∧
    alookup (publishCore s cid c sdp eng).1.clients cid =
      some { c with publisher := some { pcId := s.nextPC, remoteDesc := some sdp, localDesc := some (eng.pubAnswerSDP ++ eng.iceSuffix), gathered := true } } := by
  unfold publishCore
  simp only [h1, h2, h3, h4, Bool.false_eq_true, if_false]
  exact ⟨by simp, by simp [alookup_aupdate_self]⟩

lemma subscribeCore_success (s : SFU) (cid : String) (c : Client) (eng : Engine)
    (h5 : eng.subCreateFails = false) (h6 : eng.subCreateOfferFails = false)
    (h7 : eng.subSetLocalFails = false) :
    (subscribeCore s cid c eng).2 =
      (Event.createPC s.nextPC ::
        (addAll { pcId := s.nextPC } (allExcept s.tracks cid) eng.subAddFails).2) ++
      [Event.createOffer s.nextPC, Event.setLocalDesc s.nextPC eng.subOfferSDP,
       Event.waitGathering s.nextPC,
       Event.send cid (OutMsg.subscribeOffer (eng.subOfferSDP ++ eng.iceSuffix))] ∧
    alookup (subscribeCore s cid c eng).1.clients cid =
      some { c with subscriber := some { (addAll { pcId := s.nextPC } (allExcept s.tracks cid) eng.subAddFails).1 with localDesc := some (eng.subOfferSDP ++ eng.iceSuffix), gathered := true } } := by
  unfold subscribeCore
  simp only [h5, h6, h7, Bool.false_eq_true, if_false]
  exact ⟨by simp, by simp [alookup_aupdate_self]⟩

lemma alookup_mem {α : Type} (l : List (String × α)) (k : String) (v : α)
    (h : alookup l k = some v) : (k, v) ∈ l := by
  induction l with
  | nil => simp [alookup] at h
  | cons p t ih =>
      obtain ⟨k2, w⟩ := p
      by_cases hk : k2 = k
      · subst hk
        simp [alookup] at h
        simp [h]
      · simp [alookup, hk] at h
        exact List.mem_cons_of_mem _ (ih h)

lemma onTrackFired_lookup (s : SFU) (bid kind : String) (eng : Engine)
    (h8 : eng.trackCreateFails = false) (cid : String) :
    alookup (onTrackFired s bid kind eng).1.clients cid =
      (alookup s.clients cid).map
        (fun c => fanStep bid { owner := bid, kind := kind } eng.fanAddFails cid c) := by
  unfold onTrackFired
  rw [h8]
  simp only [Bool.false_eq_true, if_false, fanout]
  exact alookup_map_keyed s.clients cid _

lemma onTrackFired_trace (s : SFU) (bid kind : String) (eng : Engine)
    (h8 : eng.trackCreateFails = false) :
    (onTrackFired s bid kind eng).2 =
      s.clients.flatMap
        (fun p => fanEvents bid { owner := bid, kind := kind } eng.fanAddFails p.1 p.2) := by
  unfold onTrackFired
  rw [h8]
  rfl

/-! Concrete fixtures used by witness and counterexample theorems. -/

/-- A three-session state: `a` has no connections; `b` and `c` each hold a
subscriber connection. -/
def sThree : SFU :=
  { clients := [("a", { id := "a" }),
                ("b", { id := "b", subscriber := some { pcId := 1 } }),
                ("c", { id := "c", subscriber := some { pcId := 2 } })],
    tracks := [],
    nextPC := 3 }

/-- C2: after any sequence of connect / publish / subscribe / answer / ICE /
track-arrival / disconnect operations ending in a disconnect of client `cid`,
the track registry holds no entry owned by `cid` and the session set holds no
entry for `cid`; both removals are performed by the single `disconnect` step
(one transaction), whose application alone establishes the conjunction. -/
theorem claim_C2_disconnect_cleanup (s : SFU) (ops : List Op) (cid : String) :
    alookup (runOps s (ops ++ [Op.disconnect cid])).tracks cid = none ∧
    alookup (runOps s (ops ++ [Op.disconnect cid])).clients cid = none := by
  have h : runOps s (ops ++ [Op.disconnect cid]) =
      (disconnect (runOps s ops) cid).1 := by
    simp [runOps, List.foldl_append, applyOp]
  rw [h]
  unfold disconnect
  exact ⟨alookup_aerase_self _ _, alookup_aerase_self _ _⟩

/-- C3: when a session's publisher connection reports a new inbound track and
the handle is created, the fan-out performs exactly one `AddTrack` call per
other session currently holding a subscriber connection; sessions without one
are skipped without any reported error (no errors at all when no `AddTrack`
call fails); in particular, when the publisher is one of `N` sessions and
every other session has a subscriber connection, exactly `N - 1` `AddTrack`
calls occur. -/
theorem claim_C3_fanout_complete (s : SFU) (cid kind : String) (eng : Engine)
    (hcreate : eng.trackCreateFails = false)
    (hfails : eng.fanAddFails = []) :
    (onTrackFired s cid kind eng).2.countP isAddTrackEv =
        othersWithSub s.clients cid ∧
    (onTrackFired s cid kind eng).2.countP isErrEv = 0 ∧
    (s.clients.countP (fun p => p.1 == cid) = 1 →
      (∀ p ∈ s.clients, p.1 ≠ cid → p.2.subscriber.isSome = true) →
      (onTrackFired s cid kind eng).2.countP isAddTrackEv =
        s.clients.length - 1) := by
  have htr : (onTrackFired s cid kind eng).2 =
      (fanout s.clients cid { owner := cid, kind := kind } eng.fanAddFails).2 := by
    unfold onTrackFired
    rw [hcreate]
    simp
  rw [htr, hfails]
  refine ⟨countAdd_fanout _ _ _ _, countErr_fanout _ _ _, fun h1 h2 => ?_⟩
  rw [countAdd_fanout _ _ _ _]
  exact othersWithSub_pred _ _ h1 h2

/-- A one-session state whose client `a` already holds a publisher connection
with identity 5. -/
def sRepub : SFU :=
  { clients := [("a", { id := "a", publisher := some { pcId := 5 } })],
    tracks := [],
    nextPC := 6 }

/-- C4: a repeated publish by a client that already holds a publisher
connection closes the old connection first (the trace starts with exactly one
close of the old connection), and the close precedes the creation of the new
connection whenever the engine lets the creation happen. -/
theorem claim_C4_republish_closes_prior (s : SFU) (cid sdp : String)
    (eng : Engine) (c : Client) (old : PC)
    (hc : alookup s.clients cid = some c) (hp : c.publisher = some old) :
    (∃ rest, (handlePublish s cid sdp eng).2 = Event.closePC old.pcId :: rest) ∧
    (handlePublish s cid sdp eng).2.countP (isCloseEv old.pcId) = 1 ∧
    (eng.pubCreateFails = false →
      ∃ rest, (handlePublish s cid sdp eng).2 =
        Event.closePC old.pcId :: Event.createPC s.nextPC :: rest) := by
  unfold handlePublish
  simp only [hc, hp]
  refine ⟨⟨_, rfl⟩, ?_, fun h0 => ?_⟩
  · simp [List.countP_cons, isCloseEv, countClose_publishCore]
  · obtain ⟨rest, hr⟩ := publishCore_trace_head ({ s with clients := aupdate s.clients cid { c with publisher := some { old with closed := true } } }) cid ({ c with publisher := some { old with closed := true } }) sdp eng h0
    refine ⟨Event.setRemoteDesc s.nextPC sdp :: rest, ?_⟩
    rw [hr]

/-- Witness for C4: client `a` of `sRepub` republished; the old connection 5
is closed exactly once, before connection 6 is created. -/
theorem claim_C4_witness :
    (∃ rest, (handlePublish sRepub "a" "o2" {}).2 =
        Event.closePC 5 :: rest) ∧
    (handlePublish sRepub "a" "o2" {}).2.countP (isCloseEv 5) = 1 ∧
    (Engine.pubCreateFails {} = false →
      ∃ rest, (handlePublish sRepub "a" "o2" {}).2 =
        Event.closePC 5 :: Event.createPC sRepub.nextPC :: rest) :=
  claim_C4_republish_closes_prior sRepub "a" "o2" {}
    { id := "a", publisher := some { pcId := 5 } } { pcId := 5 } rfl rfl

/-- C10: a `publish` control message whose `sdp` field is missing or not a
string is dispatched as a full publish with the empty string as the offer; in
particular an existing publisher connection is closed and a new one created
before the empty offer is applied as the remote description. -/
theorem claim_C10_publish_missing_sdp (s : SFU) (cid : String)
    (data : List (String × JValue)) (eng : Engine) (c : Client) (old : PC)
    (htype : getString data "type" = "publish")
    (hsdp : jIsStr (alookup data "sdp") = false)
    (hc : alookup s.clients cid = some c) (hp : c.publisher = some old)
    (h0 : eng.pubCreateFails = false) :
    dispatch s cid data eng = handlePublish s cid "" eng ∧
    ∃ rest, (handlePublish s cid "" eng).2 =
      Event.closePC old.pcId :: Event.createPC s.nextPC ::
        Event.setRemoteDesc s.nextPC "" :: rest := by
  constructor
  · unfold dispatch
    rw [htype, getString_of_not_str data "sdp" hsdp]
    rfl
  · unfold handlePublish
    simp only [hc, hp]
    obtain ⟨rest, hr⟩ := publishCore_trace_head ({ s with clients := aupdate s.clients cid { c with publisher := some { old with closed := true } } }) cid ({ c with publisher := some { old with closed := true } }) "" eng h0
    exact ⟨rest, by rw [hr]⟩

/-- Witness for C10: a publish message carrying a numeric `sdp` field against
the `sRepub` fixture. -/
theorem claim_C10_witness :
    dispatch sRepub "a" [("type", JValue.str "publish"), ("sdp", JValue.num 3)] {} =
        handlePublish sRepub "a" "" {} ∧
    ∃ rest, (handlePublish sRepub "a" "" {}).2 =
      Event.closePC 5 :: Event.createPC sRepub.nextPC ::
        Event.setRemoteDesc sRepub.nextPC "" :: rest :=
  claim_C10_publish_missing_sdp sRepub "a"
    [("type", JValue.str "publish"), ("sdp", JValue.num 3)] {}
    { id := "a", publisher := some { pcId := 5 } } { pcId := 5 }
    rfl rfl rfl rfl rfl

/-- A one-session state: client `a` connected, no connections yet. -/
def sOne : SFU := { clients := [("a", { id := "a" })], tracks := [], nextPC := 0 }

/-- An engine whose `SetRemoteDescription` call on the publisher fails. -/
def engRemoteFail : Engine := { pubSetRemoteFails := true }

/-- Counterexample to C1 as stated: with one client holding no publisher
connection, a publish whose `SetRemoteDescription` fails leaves the session's
publisher connection installed (the freshly created connection), so it is
neither absent nor in its prior state (which was absent). -/
theorem claim_C1_counterexample :
    (alookup (handlePublish sOne "a" "offer" engRemoteFail).1.clients "a").bind
        Client.publisher ≠ none ∧
    (alookup (handlePublish sOne "a" "offer" engRemoteFail).1.clients "a").bind
        Client.publisher ≠
      (alookup sOne.clients "a").bind Client.publisher := by
  decide

/-- C1 amended: a publish flow failing after publisher-connection creation
(remote description, answer creation, or local description) aborts with no
automatic retry (no outbound message is sent and exactly one connection is
created), and the session's publisher connection is left pointing at the
newly created, half-configured connection — not absent and not its prior
value. -/
theorem claim_C1_abort_keeps_new (s : SFU) (cid sdp : String) (eng : Engine)
    (c : Client) (hc : alookup s.clients cid = some c)
    (h0 : eng.pubCreateFails = false)
    (hf : eng.pubSetRemoteFails = true ∨ eng.pubCreateAnswerFails = true ∨
          eng.pubSetLocalFails = true) :
    (handlePublish s cid sdp eng).2.countP isSendEv = 0 ∧
    (handlePublish s cid sdp eng).2.countP isCreateEv = 1 ∧
    ∃ pc, (alookup (handlePublish s cid sdp eng).1.clients cid).bind
            Client.publisher = some pc ∧
          pc.pcId = s.nextPC := by
  unfold handlePublish
  cases hp : c.publisher with
  | none =>
      simp only [hc, hp]
      obtain ⟨hs, hcr, pc, hl, hid⟩ := publishCore_abort s cid c sdp eng h0 hf
      exact ⟨hs, hcr, pc, by rw [hl]; rfl, hid⟩
  | some old =>
      simp only [hc, hp]
      obtain ⟨hs, hcr, pc, hl, hid⟩ := publishCore_abort ({ s with clients := aupdate s.clients cid { c with publisher := some { old with closed := true } } }) cid ({ c with publisher := some { old with closed := true } }) sdp eng h0 hf
      refine ⟨?_, ?_, pc, ?_, hid⟩
      · simp [List.countP_cons, isSendEv, hs]
      · simp [List.countP_cons, isCreateEv, hcr]
      · rw [hl]; rfl

/-- Witness for the amended C1 at the concrete one-session state. -/
theorem claim_C1_witness :
    (handlePublish sOne "a" "offer" engRemoteFail).2.countP isSendEv = 0 ∧
    (handlePublish sOne "a" "offer" engRemoteFail).2.countP isCreateEv = 1 ∧
    ∃ pc, (alookup (handlePublish sOne "a" "offer" engRemoteFail).1.clients
              "a").bind Client.publisher = some pc ∧
          pc.pcId = sOne.nextPC :=
  claim_C1_abort_keeps_new sOne "a" "offer" engRemoteFail { id := "a" }
    rfl rfl (Or.inl rfl)

/-- Witness for C3 on the three-session fixture: `a` publishes a video track,
`b` and `c` hold subscriber connections, so exactly two `AddTrack` calls
occur and no error is reported. -/
theorem claim_C3_witness :
    (onTrackFired sThree "a" "video" {}).2.countP isAddTrackEv =
        othersWithSub sThree.clients "a" ∧
    (onTrackFired sThree "a" "video" {}).2.countP isErrEv = 0 ∧
    (sThree.clients.countP (fun p => p.1 == "a") = 1 →
      (∀ p ∈ sThree.clients, p.1 ≠ "a" → p.2.subscriber.isSome = true) →
      (onTrackFired sThree "a" "video" {}).2.countP isAddTrackEv =
        sThree.clients.length - 1) :=
  claim_C3_fanout_complete sThree "a" "video" {} rfl rfl


/-- C7: `handleAnswer` for a session without a subscriber connection is a
no-op on the state: it reports the ordering error, leaves the whole SFU state
(and hence the session) untouched, and performs no `SetRemoteDescription`
call. -/
theorem claim_C7_answer_without_subscriber (s : SFU) (cid sdp : String)
    (eng : Engine) (c : Client)
    (hc : alookup s.clients cid = some c) (hsub : c.subscriber = none) :
    (handleAnswer s cid sdp eng).1 = s ∧
    (handleAnswer s cid sdp eng).2 =
      [Event.logError "no subscriber to set answer"] ∧
    (handleAnswer s cid sdp eng).2.countP isSetRemoteEv = 0 := by
  unfold handleAnswer
  simp only [hc, hsub]
  simp [List.countP_cons, isSetRemoteEv]

/-- Witness for C7: an answer sent by client `a` of `sOne`, who never
subscribed. -/
theorem claim_C7_witness :
    (handleAnswer sOne "a" "ans" {}).1 = sOne ∧
    (handleAnswer sOne "a" "ans" {}).2 =
      [Event.logError "no subscriber to set answer"] ∧
    (handleAnswer sOne "a" "ans" {}).2.countP isSetRemoteEv = 0 :=
  claim_C7_answer_without_subscriber sOne "a" "ans" {} { id := "a" } rfl rfl

/-- C8: an ICE candidate whose targeted connection does not exist is silently
dropped (no event at all, state unchanged); for an existing target connection
a candidate payload that fails to parse is reported and ignored, with the
state unchanged and the session intact. -/
theorem claim_C8_ice_drop_and_malformed (s : SFU) (cid target : String)
    (cand : Option JValue) (eng : Engine) (c : Client)
    (hc : alookup s.clients cid = some c) :
    (targetPC c target = none → handleICE s cid target cand eng = (s, [])) ∧
    (∀ pc, targetPC c target = some pc → parseCandidate cand = none →
       (handleICE s cid target cand eng).1 = s ∧
       (handleICE s cid target cand eng).2 =
         [Event.logError "failed to parse ICE candidate"]) := by
  unfold handleICE
  simp only [hc]
  constructor
  · intro h
    rw [h]
  · intro pc hpc hparse
    rw [hpc, hparse]
    exact ⟨rfl, rfl⟩

/-- Witness for C8: client `b` of `sThree` holds subscriber connection 1; a
candidate aimed at its absent publisher is silently dropped, and a malformed
(string-shaped) candidate aimed at the subscriber is reported and ignored. -/
theorem claim_C8_witness :
    (targetPC { id := "b", subscriber := some { pcId := 1 } } "subscribe" = none →
      handleICE sThree "b" "subscribe" (some (JValue.str "junk")) {} = (sThree, [])) ∧
    (∀ pc, targetPC { id := "b", subscriber := some { pcId := 1 } } "subscribe" = some pc →
       parseCandidate (some (JValue.str "junk")) = none →
       (handleICE sThree "b" "subscribe" (some (JValue.str "junk")) {}).1 = sThree ∧
       (handleICE sThree "b" "subscribe" (some (JValue.str "junk")) {}).2 =
         [Event.logError "failed to parse ICE candidate"]) :=
  claim_C8_ice_drop_and_malformed sThree "b" "subscribe"
    (some (JValue.str "junk")) {} { id := "b", subscriber := some { pcId := 1 } } rfl

/-- C9: any `target` other than the exact string `"publish"` selects the
subscriber connection — `handleICE` behaves exactly as it does for
`"subscribe"` — and a missing or non-string `target` field decodes to `""`,
which is such a value. -/
theorem claim_C9_nonpublish_targets_subscriber (target : String)
    (h : target ≠ "publish") :
    (∀ c : Client, targetPC c target = c.subscriber) ∧
    (∀ (s : SFU) (cid : String) (cand : Option JValue) (eng : Engine),
       handleICE s cid target cand eng = handleICE s cid "subscribe" cand eng) ∧
    (∀ data : List (String × JValue), jIsStr (alookup data "target") = false →
       getString data "target" = "") := by
  have htp : ∀ c : Client, targetPC c target = c.subscriber := by
    intro c
    unfold targetPC
    rw [if_neg h]
  refine ⟨htp, fun s cid cand eng => ?_,
          fun data hd => getString_of_not_str data "target" hd⟩
  unfold handleICE
  cases hcl : alookup s.clients cid with
  | none => rfl
  | some c =>
      have ht2 : targetPC c "subscribe" = c.subscriber := by
        unfold targetPC
        rw [if_neg (by decide)]
      simp only [htp, ht2]
      cases hsub : c.subscriber with
      | none => rfl
      | some pc =>
          cases hpar : parseCandidate cand with
          | none => rfl
          | some cstr =>
              by_cases he : eng.iceAddFails = true
              · simp [he]
              · simp [he, h]

/-- Witness for C9: the unrecognized target `"bogus"` selects the subscriber
connection. -/
theorem claim_C9_witness :
    targetPC { id := "w", subscriber := some { pcId := 9 } } "bogus" =
      Client.subscriber { id := "w", subscriber := some { pcId := 9 } } :=
  (claim_C9_nonpublish_targets_subscriber "bogus" (by decide)).1 _


/-- C5: in every successful publish and subscribe flow the handler waits for
ICE gathering to complete and only afterwards sends the single outbound
message — `publish_answer` resp. `subscribe_offer` — whose payload is the
connection's local description with the gathered candidate material embedded
(exactly one send in the whole trace, so no incremental candidate messages
exist). -/
theorem claim_C5_gather_before_send (s : SFU) (cid sdp : String) (eng : Engine)
    (c : Client) (hc : alookup s.clients cid = some c)
    (h1 : eng.pubCreateFails = false) (h2 : eng.pubSetRemoteFails = false)
    (h3 : eng.pubCreateAnswerFails = false) (h4 : eng.pubSetLocalFails = false)
    (h5 : eng.subCreateFails = false) (h6 : eng.subCreateOfferFails = false)
    (h7 : eng.subSetLocalFails = false) :
    ((handlePublish s cid sdp eng).2.countP isSendEv = 1 ∧
     (∃ pfx, (handlePublish s cid sdp eng).2 =
        pfx ++ [Event.waitGathering s.nextPC,
                Event.send cid (OutMsg.publishAnswer (eng.pubAnswerSDP ++ eng.iceSuffix))]) ∧
     (∃ pc, (alookup (handlePublish s cid sdp eng).1.clients cid).bind
              Client.publisher = some pc ∧
            PC.localDesc pc = some (eng.pubAnswerSDP ++ eng.iceSuffix) ∧
            PC.gathered pc = true ∧ PC.pcId pc = s.nextPC)) ∧
    ((handleSubscribe s cid eng).2.countP isSendEv = 1 ∧
     (∃ pfx, (handleSubscribe s cid eng).2 =
        pfx ++ [Event.waitGathering s.nextPC,
                Event.send cid (OutMsg.subscribeOffer (eng.subOfferSDP ++ eng.iceSuffix))]) ∧
     (∃ pc, (alookup (handleSubscribe s cid eng).1.clients cid).bind
              Client.subscriber = some pc ∧
            PC.localDesc pc = some (eng.subOfferSDP ++ eng.iceSuffix) ∧
            PC.gathered pc = true ∧ PC.pcId pc = s.nextPC)) := by
  constructor
  · unfold handlePublish
    cases hp : c.publisher with
    | none =>
        simp only [hc, hp]
        obtain ⟨htr, hst⟩ := publishCore_success s cid c sdp eng h1 h2 h3 h4
        refine ⟨?_, ?_, ?_⟩
        · rw [htr]
          simp [List.countP_cons, isSendEv]
        · refine ⟨[Event.createPC s.nextPC, Event.setRemoteDesc s.nextPC sdp, Event.createAnswer s.nextPC, Event.setLocalDesc s.nextPC eng.pubAnswerSDP], ?_⟩
          rw [htr]
          rfl
        · refine ⟨{ pcId := s.nextPC, remoteDesc := some sdp, localDesc := some (eng.pubAnswerSDP ++ eng.iceSuffix), gathered := true }, ?_, rfl, rfl, rfl⟩
          rw [hst]
          rfl
    | some old =>
        simp only [hc, hp]
        obtain ⟨htr, hst⟩ := publishCore_success ({ s with clients := aupdate s.clients cid { c with publisher := some { old with closed := true } } }) cid ({ c with publisher := some { old with closed := true } }) sdp eng h1 h2 h3 h4
        refine ⟨?_, ?_, ?_⟩
        · rw [htr]
          simp [List.countP_cons, isSendEv]
        · refine ⟨[Event.closePC old.pcId, Event.createPC s.nextPC, Event.setRemoteDesc s.nextPC sdp, Event.createAnswer s.nextPC, Event.setLocalDesc s.nextPC eng.pubAnswerSDP], ?_⟩
          rw [htr]
          rfl
        · refine ⟨{ pcId := s.nextPC, remoteDesc := some sdp, localDesc := some (eng.pubAnswerSDP ++ eng.iceSuffix), gathered := true }, ?_, rfl, rfl, rfl⟩
          rw [hst]
          rfl
  · unfold handleSubscribe
    cases hp : c.subscriber with
    | none =>
        simp only [hc, hp]
        obtain ⟨htr, hst⟩ := subscribeCore_success s cid c eng h5 h6 h7
        refine ⟨?_, ?_, ?_⟩
        · rw [htr]
          simp [List.countP_cons, List.countP_append, isSendEv, countSend_addAll]
        · refine ⟨(Event.createPC s.nextPC :: (addAll { pcId := s.nextPC } (allExcept s.tracks cid) eng.subAddFails).2) ++ [Event.createOffer s.nextPC, Event.setLocalDesc s.nextPC eng.subOfferSDP], ?_⟩
          rw [htr]
          simp
        · refine ⟨{ (addAll { pcId := s.nextPC } (allExcept s.tracks cid) eng.subAddFails).1 with localDesc := some (eng.subOfferSDP ++ eng.iceSuffix), gathered := true }, ?_, rfl, rfl, ?_⟩
          · rw [hst]
            rfl
          · exact addAll_pcId _ _ _
    | some old =>
        simp only [hc, hp]
        obtain ⟨htr, hst⟩ := subscribeCore_success ({ s with clients := aupdate s.clients cid { c with subscriber := some { old with closed := true } } }) cid ({ c with subscriber := some { old with closed := true } }) eng h5 h6 h7
        refine ⟨?_, ?_, ?_⟩
        · rw [htr]
          simp [List.countP_cons, List.countP_append, isSendEv, countSend_addAll]
        · refine ⟨Event.closePC old.pcId :: ((Event.createPC s.nextPC :: (addAll { pcId := s.nextPC } (allExcept s.tracks cid) eng.subAddFails).2) ++ [Event.createOffer s.nextPC, Event.setLocalDesc s.nextPC eng.subOfferSDP]), ?_⟩
          rw [htr]
          simp
        · refine ⟨{ (addAll { pcId := s.nextPC } (allExcept s.tracks cid) eng.subAddFails).1 with localDesc := some (eng.subOfferSDP ++ eng.iceSuffix), gathered := true }, ?_, rfl, rfl, ?_⟩
          · rw [hst]
            rfl
          · exact addAll_pcId _ _ _

/-- Witness for C5: the publish side of the successful flow for client `a` of
`sOne` sends exactly one message. -/
theorem claim_C5_witness :
    (handlePublish sOne "a" "off" {}).2.countP isSendEv = 1 ∧
    (handleSubscribe sOne "a" {}).2.countP isSendEv = 1 :=
  ⟨(claim_C5_gather_before_send sOne "a" "off" {} { id := "a" }
      rfl rfl rfl rfl rfl rfl rfl rfl).1.1,
   (claim_C5_gather_before_send sOne "a" "off" {} { id := "a" }
      rfl rfl rfl rfl rfl rfl rfl rfl).2.1⟩


lemma handleSubscribe_empty (s : SFU) (cid : String) (eng : Engine) (c : Client)
    (hc : alookup s.clients cid = some c)
    (hempty : allExcept s.tracks cid = [])
    (h5 : eng.subCreateFails = false) (h6 : eng.subCreateOfferFails = false)
    (h7 : eng.subSetLocalFails = false) :
    alookup (handleSubscribe s cid eng).1.clients cid =
      some { c with subscriber := some { pcId := s.nextPC, localDesc := some (eng.subOfferSDP ++ eng.iceSuffix), gathered := true } } ∧
    (handleSubscribe s cid eng).2.countP isAddTrackEv = 0 ∧
    (handleSubscribe s cid eng).2.countP isSendEv = 1 := by
  unfold handleSubscribe
  cases hp : c.subscriber with
  | none =>
      simp only [hc, hp]
      obtain ⟨htr, hst⟩ := subscribeCore_success s cid c eng h5 h6 h7
      rw [hempty] at htr hst
      refine ⟨by rw [hst]; rfl, ?_, ?_⟩
      · rw [htr]
        simp [addAll, List.countP_cons, List.countP_append, isAddTrackEv]
      · rw [htr]
        simp [addAll, List.countP_cons, List.countP_append, isSendEv]
  | some old =>
      simp only [hc, hp]
      obtain ⟨htr, hst⟩ := subscribeCore_success ({ s with clients := aupdate s.clients cid { c with subscriber := some { old with closed := true } } }) cid ({ c with subscriber := some { old with closed := true } }) eng h5 h6 h7
      have hempty2 : allExcept ({ s with clients := aupdate s.clients cid { c with subscriber := some { old with closed := true } } } : SFU).tracks cid = [] := hempty
      rw [hempty2] at htr hst
      refine ⟨by rw [hst]; rfl, ?_, ?_⟩
      · rw [htr]
        simp [addAll, List.countP_cons, List.countP_append, isAddTrackEv]
      · rw [htr]
        simp [addAll, List.countP_cons, List.countP_append, isSendEv]

/-- C6: a subscribe issued while no other client has a registered track still
creates the subscriber connection and sends an offer carrying zero tracks (no
`AddTrack` call at all, one outbound message); a publish by another client
afterwards pushes exactly that new track into the already-existing subscriber
connection through the fan-out path. -/
theorem claim_C6_subscribe_empty_then_pushed (s : SFU) (cid bid kind : String)
    (eng eng2 : Engine) (c : Client)
    (hc : alookup s.clients cid = some c)
    (hempty : allExcept s.tracks cid = [])
    (h5 : eng.subCreateFails = false) (h6 : eng.subCreateOfferFails = false)
    (h7 : eng.subSetLocalFails = false)
    (hbid : cid ≠ bid)
    (h8 : eng2.trackCreateFails = false) (h9 : eng2.fanAddFails = []) :
    (∃ pc, (alookup (handleSubscribe s cid eng).1.clients cid).bind
             Client.subscriber = some pc ∧ PC.tracks pc = []) ∧
    (handleSubscribe s cid eng).2.countP isAddTrackEv = 0 ∧
    (handleSubscribe s cid eng).2.countP isSendEv = 1 ∧
    (∃ pc, (alookup (onTrackFired (handleSubscribe s cid eng).1 bid kind
              eng2).1.clients cid).bind Client.subscriber = some pc ∧
           PC.tracks pc = [{ owner := bid, kind := kind }] ∧
           Event.addTrack (PC.pcId pc) { owner := bid, kind := kind } ∈
             (onTrackFired (handleSubscribe s cid eng).1 bid kind eng2).2) := by
  obtain ⟨hst, hAdd, hSend⟩ := handleSubscribe_empty s cid eng c hc hempty h5 h6 h7
  refine ⟨⟨{ pcId := s.nextPC, localDesc := some (eng.subOfferSDP ++ eng.iceSuffix), gathered := true }, by rw [hst]; rfl, rfl⟩, hAdd, hSend, ?_⟩
  have hlook := onTrackFired_lookup (handleSubscribe s cid eng).1 bid kind eng2 h8 cid
  rw [hst, h9] at hlook
  have htrace := onTrackFired_trace (handleSubscribe s cid eng).1 bid kind eng2 h8
  have hmem : (cid, { c with subscriber := some ({ pcId := s.nextPC, localDesc := some (eng.subOfferSDP ++ eng.iceSuffix), gathered := true } : PC) }) ∈ (handleSubscribe s cid eng).1.clients :=
    alookup_mem _ _ _ hst
  refine ⟨{ pcId := s.nextPC, localDesc := some (eng.subOfferSDP ++ eng.iceSuffix), gathered := true, tracks := [{ owner := bid, kind := kind }] }, ?_, rfl, ?_⟩
  · rw [hlook]
    simp [fanStep, hbid]
  · rw [htrace, h9]
    refine List.mem_flatMap.mpr ⟨(cid, { c with subscriber := some ({ pcId := s.nextPC, localDesc := some (eng.subOfferSDP ++ eng.iceSuffix), gathered := true } : PC) }), hmem, ?_⟩
    simp [fanEvents, hbid]

/-- Witness for C6: client `b` of `sThree` resubscribes while the registry is
empty, then client `a` publishes a video track that lands in `b`'s new
subscriber connection. -/
theorem claim_C6_witness :
    (handleSubscribe sThree "b" {}).2.countP isAddTrackEv = 0 ∧
    (∃ pc, (alookup (onTrackFired (handleSubscribe sThree "b" {}).1 "a" "video"
              {}).1.clients "b").bind Client.subscriber = some pc ∧
           PC.tracks pc = [{ owner := "a", kind := "video" }] ∧
           Event.addTrack (PC.pcId pc) { owner := "a", kind := "video" } ∈
             (onTrackFired (handleSubscribe sThree "b" {}).1 "a" "video" {}).2) :=
  ⟨(claim_C6_subscribe_empty_then_pushed sThree "b" "a" "video" {} {}
      { id := "b", subscriber := some { pcId := 1 } }
      rfl rfl rfl rfl rfl (by decide) rfl rfl).2.1,
   (claim_C6_subscribe_empty_then_pushed sThree "b" "a" "video" {} {}
      { id := "b", subscriber := some { pcId := 1 } }
      rfl rfl rfl rfl rfl (by decide) rfl rfl).2.2.2⟩

end PionSfu
